import Mathlib

/-!
Verification of the arcane example services.

The repository ships three example programs:
  * `examples/full-stack-demo/api.py` — a Flask API with routes `/health`, `/`,
    `/env`, `/db-check`, `/cache-check`, `/queue-check`, `/services`;
  * `examples/feature-test/app.py` — a `BaseHTTPRequestHandler` server with
    `/health`, `/crash` and a plain-text fallback body;
  * `examples/full-stack-demo/worker.py` — a heartbeat loop (not needed below).

The environment is modelled as an association list captured at a point in
time (`os.environ` is a mapping with unique keys; lookup here is first
match, which coincides on such snapshots).  Each route handler is embedded
as a pure Lean function over that snapshot; the feature-test handler, which
also prints and may terminate the process, is embedded as a function
producing the list of observable events it performs, in order.
-/

/-- A configuration snapshot: the key/value pairs of `os.environ`. -/
abbrev Env := List (String × String)

/-- First-match lookup in an association list keyed by strings
(`os.environ.get key` / dict lookup). -/
def alistGet {α : Type} : List (String × α) → String → Option α
  | [], _ => none
  | (k, v) :: rest, key => if k == key then some v else alistGet rest key

/-- `os.environ.get(key)`: `none` when the key is absent. -/
def envGet (env : Env) (key : String) : Option String :=
  alistGet env key

/-- `os.environ.get(key, default)`. -/
def envGetD (env : Env) (key default : String) : String :=
  (envGet env key).getD default

/-- Bool-valued prefix test on character lists. -/
def isPrefixOfChars : List Char → List Char → Bool
  | [], _ => true
  | _ :: _, [] => false
  | a :: as, b :: bs => a == b && isPrefixOfChars as bs

/-- Bool-valued contiguous-substring test on character lists. -/
def isInfixOfChars : List Char → List Char → Bool
  | needle, [] => isPrefixOfChars needle []
  | needle, b :: bs => isPrefixOfChars needle (b :: bs) || isInfixOfChars needle bs

/-- Python's `needle in hay` on strings: contiguous substring test. -/
def strContains (hay needle : String) : Bool :=
  isInfixOfChars needle.data hay.data

/-- The sensitive-key markers of `show_env` in `api.py`. -/
def secretMarkers : List String := ["KEY", "SECRET", "PASSWORD", "TOKEN"]

/-- Python's `str.upper()` on the ASCII range (character-wise upper-casing;
the sensitivity markers are ASCII, and the example snapshots use ASCII
keys, so the ASCII case map is the behaviour exercised here). -/
def strUpper (s : String) : String :=
  ⟨s.data.map Char.toUpper⟩

/-- `any(secret in key.upper() for secret in ['KEY','SECRET','PASSWORD','TOKEN'])`. -/
def isSensitiveKey (key : String) : Bool :=
  secretMarkers.any (fun s => strContains (strUpper key) s)

/-- `value[:4] + '****' if len(value) > 4 else '****'` (the conditional
expression scopes over the whole concatenation). -/
def maskValue (value : String) : String :=
  if value.length > 4 then value.take 4 ++ "****" else "****"

/-- The dictionary built by `show_env` in `api.py`: every entry of the
snapshot, with values of sensitive keys masked. -/
def show_env (env : Env) : Env :=
  env.map (fun kv => (kv.1, if isSensitiveKey kv.1 then maskValue kv.2 else kv.2))

/-- Status string computed by `db_check` in `api.py` (the handler wraps it
as `{"database": <status>}`; see `apiHandle`). -/
def db_check (env : Env) : String :=
  let db_url := envGetD env "DATABASE_URL" "not configured"
  if strContains db_url "postgres" then "configured" else "not configured"

/-- Status string computed by `cache_check` in `api.py`. -/
def cache_check (env : Env) : String :=
  let redis_url := envGetD env "REDIS_URL" "not configured"
  if strContains redis_url "redis" then "configured" else "not configured"

/-- Status string computed by `queue_check` in `api.py`. -/
def queue_check (env : Env) : String :=
  let mq_url := envGetD env "RABBITMQ_URL" "not configured"
  if strContains mq_url "amqp" then "configured" else "not configured"

/-- `bool(os.environ.get(key))`: false when the key is absent (`None`) or
its value is the empty string, true otherwise. -/
def envBool (env : Env) (key : String) : Bool :=
  match envGet env key with
  | none => false
  | some v => v != ""

/-- The dictionary built by `services` in `api.py`. -/
def services (env : Env) : List (String × Bool) :=
  [("database", envBool env "DATABASE_URL"),
   ("redis", envBool env "REDIS_URL"),
   ("rabbitmq", envBool env "RABBITMQ_URL"),
   ("stripe", envBool env "STRIPE_SECRET_KEY"),
   ("sendgrid", envBool env "SENDGRID_API_KEY"),
   ("twilio", envBool env "TWILIO_ACCOUNT_SID"),
   ("aws", envBool env "AWS_ACCESS_KEY_ID"),
   ("google_oauth", envBool env "GOOGLE_CLIENT_ID"),
   ("github_oauth", envBool env "GITHUB_CLIENT_ID"),
   ("sentry", envBool env "SENTRY_DSN"),
   ("openai", envBool env "OPENAI_API_KEY")]

/-- The dependency-name/configuration-key association of the `services`
dictionary, read off its eleven entries. -/
def serviceDeps : List (String × String) :=
  [("database", "DATABASE_URL"),
   ("redis", "REDIS_URL"),
   ("rabbitmq", "RABBITMQ_URL"),
   ("stripe", "STRIPE_SECRET_KEY"),
   ("sendgrid", "SENDGRID_API_KEY"),
   ("twilio", "TWILIO_ACCOUNT_SID"),
   ("aws", "AWS_ACCESS_KEY_ID"),
   ("google_oauth", "GOOGLE_CLIENT_ID"),
   ("github_oauth", "GITHUB_CLIENT_ID"),
   ("sentry", "SENTRY_DSN"),
   ("openai", "OPENAI_API_KEY")]

/-- JSON-like values, as produced by `jsonify`.  The timestamp of `/` is an
abstract tick (`num`); floating point is not modelled and no claim rests
on it. -/
inductive Json where
  | str (s : String)
  | bool (b : Bool)
  | num (n : Nat)
  | obj (fields : List (String × Json))

/-- An HTTP response body: plain text or JSON. -/
inductive Body where
  | text (s : String)
  | json (j : Json)

/-- An HTTP response: status code and body. -/
structure Response where
  status : Nat
  body : Body

/-- Route dispatch of the Flask app in `api.py`: exact path match against
the seven registered routes; `none` models the framework's 404 for
anything else.  Each branch is the body of the corresponding handler;
`now` stands for `time.time()`. -/
def apiHandle (env : Env) (now : Nat) (path : String) : Option Response :=
  if path == "/health" then
    some { status := 200, body := Body.text "OK" }
  else if path == "/" then
    some { status := 200, body := Body.json (Json.obj
      [("service", Json.str "Full-Stack Demo API"),
       ("version", Json.str "1.0.0"),
       ("environment", Json.str (envGetD env "APP_ENV" "unknown")),
       ("timestamp", Json.num now)]) }
  else if path == "/env" then
    some { status := 200, body := Body.json (Json.obj
      ((show_env env).map (fun kv => (kv.1, Json.str kv.2)))) }
  else if path == "/db-check" then
    some { status := 200, body := Body.json (Json.obj
      [("database", Json.str (db_check env))]) }
  else if path == "/cache-check" then
    some { status := 200, body := Body.json (Json.obj
      [("redis", Json.str (cache_check env))]) }
  else if path == "/queue-check" then
    some { status := 200, body := Body.json (Json.obj
      [("rabbitmq", Json.str (queue_check env))]) }
  else if path == "/services" then
    some { status := 200, body := Body.json (Json.obj
      ((services env).map (fun kv => (kv.1, Json.bool kv.2)))) }
  else
    none

/-- Handler-level effects of one request to the Flask app.  The handlers in
`api.py` contain no print statement: the only effect of a handled request
is its response (request logging, if any, happens in the host framework,
outside this source). -/
inductive ApiEvent where
  | logLine (line : String)
  | respond (r : Response)

/-- True exactly on diagnostic-log events of the Flask app. -/
def isApiLogEvent : ApiEvent → Bool
  | ApiEvent.logLine _ => true
  | ApiEvent.respond _ => false

/-- The ordered effects a request to `api.py` performs inside the handler:
just the response (no handler in `api.py` writes a diagnostic line). -/
def apiTrace (env : Env) (now : Nat) (path : String) : List ApiEvent :=
  match apiHandle env now path with
  | some r => [ApiEvent.respond r]
  | none => []

/-- Observable events of the feature-test server `app.py`, in order:
writes to stdout/stderr, response pieces sent over the socket, and
process termination (`sys.exit`). -/
inductive Event where
  | logOut (line : String)
  | logErr (line : String)
  | sendStatus (code : Nat)
  | sendBody (body : String)
  | exitProcess (code : Nat)

/-- True exactly on the events that transmit response data. -/
def isSendEvent : Event → Bool
  | Event.sendStatus _ => true
  | Event.sendBody _ => true
  | _ => false

/-- True exactly on stdout diagnostic-log events. -/
def isLogOutEvent : Event → Bool
  | Event.logOut _ => true
  | _ => false

/-- The fallback body of `do_GET` in `app.py` (f-string with `HOSTNAME`
and `SECRET_KEY` fallbacks). -/
def featureBody (env : Env) : String :=
  "🚀 Hello from Arcane!\nHostname: " ++ envGetD env "HOSTNAME" "unknown" ++
    "\nSecret: " ++ envGetD env "SECRET_KEY" "NOT_SET" ++ "\n"

/-- `Handler.do_GET` of `app.py` as its ordered event trace.  `ts` stands
for `time.ctime()`.  The trace after `exitProcess` is empty: `sys.exit`
does not return. -/
def do_GET (ts : String) (env : Env) (path : String) : List Event :=
  Event.logOut ("[" ++ ts ++ "] 📥 Request: " ++ path) ::
    (if path == "/health" then
      [Event.sendStatus 200, Event.sendBody "OK"]
    else if path == "/crash" then
      [Event.logErr "💥 CRASHING NOW...", Event.exitProcess 1]
    else
      [Event.sendStatus 200, Event.sendBody (featureBody env)])

/-- Whitespace as stripped by Python's `int()`. -/
def isSpaceChar (c : Char) : Bool :=
  c == ' ' || c == '\t' || c == '\n' || c == '\r'

/-- Value of a non-empty all-digit character list, most significant first. -/
def decDigitsAux : List Char → Nat → Option Nat
  | [], acc => some acc
  | c :: rest, acc =>
    if c.isDigit then decDigitsAux rest (acc * 10 + (c.toNat - 48)) else none

/-- `none` on the empty list or any non-digit character. -/
def decDigits : List Char → Option Nat
  | [] => none
  | l => decDigitsAux l 0

/-- Python `int(s)` on a string, in the decimal forms the examples use:
optional surrounding whitespace, optional sign, decimal digits; failure
(a `ValueError`) is `none`.  Underscore grouping and non-decimal bases
are not modelled (unused here). -/
def pyIntParse (s : String) : Option Int :=
  match ((s.data.dropWhile isSpaceChar).reverse.dropWhile isSpaceChar).reverse with
  | '-' :: ds => (decDigits ds).map (fun n => -(n : Int))
  | '+' :: ds => (decDigits ds).map (fun n => (n : Int))
  | ds => (decDigits ds).map (fun n => (n : Int))

/-- `PORT = int(os.environ.get("PORT", 8080))` in `app.py`: when the key is
absent the default is the integer `8080` itself. -/
def featurePORT (env : Env) : Option Int :=
  match envGet env "PORT" with
  | some v => pyIntParse v
  | none => some 8080

/-- The bind address of `HTTPServer(('0.0.0.0', PORT), Handler)`. -/
def featureListenHost : String := "0.0.0.0"

/-- The bind address of `app.run(host='0.0.0.0', port=8080)`. -/
def apiListenHost : String := "0.0.0.0"

/-- The port of `app.run(host='0.0.0.0', port=8080)`: a literal, the same
for every configuration snapshot. -/
def apiBoundPort (_env : Env) : Int := 8080

/-- The port the claim prescribes, written from its words: taken from the
configuration value `PORT`, defaulting to 8080 when that value is absent. -/
def portSpec (env : Env) : Option Int :=
  match envGet env "PORT" with
  | some v => pyIntParse v
  | none => some 8080

/-- The Flask serving loop, with the configuration snapshot threaded
through explicitly: no handler in `api.py` assigns to `os.environ`, so
each request is answered from the same snapshot. -/
def apiServe : Env → List (Nat × String) → Env × List (Option Response)
  | env, [] => (env, [])
  | env, (now, path) :: rest =>
    let resp := apiHandle env now path
    let next := apiServe env rest
    (next.1, resp :: next.2)

/-- The feature-test serving loop (`serve_forever`), with the snapshot
threaded through explicitly: `do_GET` never assigns to `os.environ`. -/
def featureServe : Env → List (String × String) → Env × List (List Event)
  | env, [] => (env, [])
  | env, (ts, path) :: rest =>
    let tr := do_GET ts env path
    let next := featureServe env rest
    (next.1, tr :: next.2)

/-! ### Helper lemmas -/

theorem alistGet_map_value (f : String → String → String) (env : Env) (k : String) :
    alistGet (env.map (fun kv => (kv.1, f kv.1 kv.2))) k =
      (alistGet env k).map (fun v => f k v) := by
  induction env with
  | nil => rfl
  | cons kv rest ih =>
    obtain ⟨k1, v1⟩ := kv
    cases h : (k1 == k) with
    | false => simp [alistGet, h, ih]
    | true =>
      have hk : k1 = k := eq_of_beq h
      subst hk
      simp [alistGet]

theorem envBool_iff (env : Env) (key : String) :
    envBool env key = true ↔ ∃ v, envGet env key = some v ∧ v ≠ "" := by
  unfold envBool
  cases h : envGet env key with
  | none => simp [h]
  | some v => simp [h, bne_iff_ne]

theorem isPrefixOfChars_append (m l : List Char) :
    isPrefixOfChars m (m ++ l) = true := by
  induction m with
  | nil => rfl
  | cons a as ih => simp [isPrefixOfChars, ih]

theorem isInfixOfChars_of_isPrefix (m hay : List Char)
    (h : isPrefixOfChars m hay = true) : isInfixOfChars m hay = true := by
  cases hay with
  | nil => simpa [isInfixOfChars] using h
  | cons b bs => simp [isInfixOfChars, h]

theorem isInfixOfChars_cons (m : List Char) (b : Char) (bs : List Char)
    (h : isInfixOfChars m bs = true) : isInfixOfChars m (b :: bs) = true := by
  simp [isInfixOfChars, h]

theorem isInfixOfChars_middle (m l1 l2 : List Char) :
    isInfixOfChars m (l1 ++ (m ++ l2)) = true := by
  induction l1 with
  | nil =>
    exact isInfixOfChars_of_isPrefix m (m ++ l2) (isPrefixOfChars_append m l2)
  | cons a as ih => exact isInfixOfChars_cons m a (as ++ (m ++ l2)) ih

theorem strContains_of_data (hay needle : String) (l1 l2 : List Char)
    (h : hay.data = l1 ++ (needle.data ++ l2)) : strContains hay needle = true := by
  unfold strContains
  rw [h]
  exact isInfixOfChars_middle needle.data l1 l2

theorem envGet_show_env (env : Env) (k : String) :
    envGet (show_env env) k =
      (envGet env k).map (fun v => if isSensitiveKey k then maskValue v else v) := by
  unfold envGet show_env
  exact alistGet_map_value
    (fun key val => if isSensitiveKey key then maskValue val else val) env k

/-! ### Claim theorems -/

/-- Claim C1: for every snapshot, the `/env` response maps each key to a
value determined by the sensitivity predicate and the masking rule: keys
containing (case-insensitively) "KEY", "SECRET", "PASSWORD" or "TOKEN"
map to the first 4 characters of the raw value followed by the mask
marker when the raw value is longer than 4 characters, and to the marker
alone otherwise; all other keys map to their raw value unchanged. -/
theorem env_route_masks_sensitive_keys (env : Env) (k v : String)
    (h : envGet env k = some v) :
    envGet (show_env env) k =
      some (if (["KEY", "SECRET", "PASSWORD", "TOKEN"].any fun s =>
                  strContains (strUpper k) s)
            then (if v.length > 4 then v.take 4 ++ "****" else "****")
            else v) := by
  rw [envGet_show_env, h]
  rfl

/-- Witness for C1: `SECRET_KEY=abcdefgh` is reported as `abcd****`. -/
theorem env_route_masks_sensitive_keys_witness :
    envGet (show_env [("SECRET_KEY", "abcdefgh"), ("APP_ENV", "prod")]) "SECRET_KEY" =
      some (if (["KEY", "SECRET", "PASSWORD", "TOKEN"].any fun s =>
                  strContains (strUpper "SECRET_KEY") s)
            then (if ("abcdefgh" : String).length > 4
                  then ("abcdefgh" : String).take 4 ++ "****" else "****")
            else "abcdefgh") :=
  env_route_masks_sensitive_keys [("SECRET_KEY", "abcdefgh"), ("APP_ENV", "prod")]
    "SECRET_KEY" "abcdefgh" rfl

/-- Claim C2: `/db-check` reports "configured" iff the raw `DATABASE_URL`
value contains the substring "postgres", and "not configured" otherwise,
including when the key is absent (the absent-key default string does not
contain "postgres"). -/
theorem db_check_postgres_substring (env : Env) :
    db_check env = (match envGet env "DATABASE_URL" with
      | some v => if strContains v "postgres" then "configured" else "not configured"
      | none => "not configured") := by
  unfold db_check envGetD
  cases h : envGet env "DATABASE_URL" with
  | none =>
    simp [h]
    decide
  | some v => simp [h]

/-- Claim C10: `/cache-check` reports "configured" iff the raw `REDIS_URL`
value contains "redis", and `/queue-check` iff the raw `RABBITMQ_URL`
value contains "amqp"; an absent key makes the default string be tested
in its place and the result is "not configured". -/
theorem scheme_substring_checks (env : Env) :
    (cache_check env = (match envGet env "REDIS_URL" with
      | some v => if strContains v "redis" then "configured" else "not configured"
      | none => "not configured")) ∧
    (queue_check env = (match envGet env "RABBITMQ_URL" with
      | some v => if strContains v "amqp" then "configured" else "not configured"
      | none => "not configured")) := by
  constructor
  · unfold cache_check envGetD
    cases h : envGet env "REDIS_URL" with
    | none =>
      simp [h]
      decide
    | some v => simp [h]
  · unfold queue_check envGetD
    cases h : envGet env "RABBITMQ_URL" with
    | none =>
      simp [h]
      decide
    | some v => simp [h]

/-- Claim C7: for every snapshot, `/health` yields status 200 and the
literal body "OK", in both services. -/
theorem health_route_ok (env : Env) (now : Nat) (ts : String) :
    apiHandle env now "/health" = some { status := 200, body := Body.text "OK" } ∧
    (do_GET ts env "/health").filter isSendEvent =
      [Event.sendStatus 200, Event.sendBody "OK"] :=
  ⟨rfl, rfl⟩

/-- Claim C3: `/services` reports `true` for a dependency iff that
dependency's configuration key is present with a non-empty value; in
particular an empty-string value is reported `false`. -/
theorem services_reports_presence (env : Env) (name key : String)
    (h : (name, key) ∈ serviceDeps) :
    alistGet (services env) name = some (envBool env key) ∧
    (envBool env key = true ↔ ∃ v, envGet env key = some v ∧ v ≠ "") := by
  refine ⟨?_, envBool_iff env key⟩
  fin_cases h <;> rfl

/-- Witness for C3: with `REDIS_URL` set to the empty string, the `redis`
entry of `/services` is the presence bit of `REDIS_URL`, and that bit is
true exactly when the key holds a non-empty value. -/
theorem services_reports_presence_witness :
    alistGet (services [("DATABASE_URL", "postgres://x"), ("REDIS_URL", "")]) "redis" =
      some (envBool [("DATABASE_URL", "postgres://x"), ("REDIS_URL", "")] "REDIS_URL") ∧
    (envBool [("DATABASE_URL", "postgres://x"), ("REDIS_URL", "")] "REDIS_URL" = true ↔
      ∃ v, envGet [("DATABASE_URL", "postgres://x"), ("REDIS_URL", "")] "REDIS_URL" =
        some v ∧ v ≠ "") :=
  services_reports_presence [("DATABASE_URL", "postgres://x"), ("REDIS_URL", "")]
    "redis" "REDIS_URL" (by decide)

/-- Claim C4: requesting `/crash` terminates the process with a non-zero
exit status and transmits no response data. -/
theorem crash_exits_without_response (ts : String) (env : Env) :
    ∃ c, c ≠ 0 ∧
      do_GET ts env "/crash" =
        [Event.logOut ("[" ++ ts ++ "] 📥 Request: " ++ "/crash"),
         Event.logErr "💥 CRASHING NOW...",
         Event.exitProcess c] ∧
      (do_GET ts env "/crash").filter isSendEvent = [] :=
  ⟨1, by decide, rfl, rfl⟩

/-- Counterexample for C5: with `PORT=9000` in the snapshot, the port the
claim prescribes is 9000, but the full-stack service passes the literal
8080 to `app.run`, ignoring `PORT`. -/
theorem port_claim_counterexample :
    portSpec [("PORT", "9000")] = some 9000 ∧
    apiBoundPort [("PORT", "9000")] = 8080 ∧
    some (apiBoundPort [("PORT", "9000")]) ≠ portSpec [("PORT", "9000")] := by
  refine ⟨?_, rfl, ?_⟩ <;> decide

/-- Claim C5 as amended: both services bind all interfaces (host
`0.0.0.0`); the feature-test service takes its port from the `PORT`
configuration value, defaulting to 8080 when it is absent, while the
full-stack service always passes the literal port 8080, ignoring `PORT`. -/
theorem listener_binding_amended (env : Env) :
    featureListenHost = "0.0.0.0" ∧ apiListenHost = "0.0.0.0" ∧
    featurePORT env = portSpec env ∧ apiBoundPort env = 8080 :=
  ⟨rfl, rfl, rfl, rfl⟩

/-- Counterexample for C6: the `/health` request to the full-stack app is
handled (a response is produced) yet its handler writes no diagnostic log
line at all — `api.py`'s handlers contain no logging statement. -/
theorem request_log_counterexample :
    apiTrace [] 0 "/health" =
      [ApiEvent.respond { status := 200, body := Body.text "OK" }] ∧
    (apiTrace [] 0 "/health").filter isApiLogEvent = [] :=
  ⟨rfl, rfl⟩

/-- Claim C6 as amended: in the feature-test variant every request is
first logged to stdout with a line containing the timestamp and the
request path, before any response or other event, and no further stdout
log line follows; the full-stack variant's handlers write no diagnostic
line themselves. -/
theorem request_logged_first_amended (ts : String) (env : Env) (path : String)
    (env2 : Env) (now : Nat) (p2 : String) :
    (do_GET ts env path).head? =
      some (Event.logOut ("[" ++ ts ++ "] 📥 Request: " ++ path)) ∧
    strContains ("[" ++ ts ++ "] 📥 Request: " ++ path) ts = true ∧
    strContains ("[" ++ ts ++ "] 📥 Request: " ++ path) path = true ∧
    (do_GET ts env path).tail.filter isLogOutEvent = [] ∧
    (apiTrace env2 now p2).filter isApiLogEvent = [] := by
  refine ⟨rfl, ?_, ?_, ?_, ?_⟩
  · apply strContains_of_data _ _ ("[").data (("] 📥 Request: " ++ path).data)
    simp [String.data_append]
  · apply strContains_of_data _ _ ("[" ++ ts ++ "] 📥 Request: ").data []
    simp [String.data_append]
  · simp only [do_GET, List.tail_cons]
    split
    · rfl
    · split <;> rfl
  · unfold apiTrace
    cases apiHandle env2 now p2 <;> rfl

/-- Claim C8: in the feature-test variant, any path other than `/health`
and `/crash` yields status 200 and the three-line plain-text body:
greeting, `HOSTNAME` value (default "unknown") and the unmasked
`SECRET_KEY` value (default "NOT_SET"). -/
theorem fallback_route_body (env : Env) (ts path : String)
    (h1 : path ≠ "/health") (h2 : path ≠ "/crash") :
    (do_GET ts env path).filter isSendEvent =
      [Event.sendStatus 200,
       Event.sendBody ("🚀 Hello from Arcane!\nHostname: " ++
         envGetD env "HOSTNAME" "unknown" ++ "\nSecret: " ++
         envGetD env "SECRET_KEY" "NOT_SET" ++ "\n")] := by
  have e1 : (path == "/health") = false := beq_eq_false_iff_ne.mpr h1
  have e2 : (path == "/crash") = false := beq_eq_false_iff_ne.mpr h2
  simp [do_GET, e1, e2, isSendEvent, featureBody]

/-- Witness for C8 at a concrete path and snapshot. -/
theorem fallback_route_body_witness :
    (do_GET "T" [("HOSTNAME", "box")] "/other").filter isSendEvent =
      [Event.sendStatus 200,
       Event.sendBody ("🚀 Hello from Arcane!\nHostname: " ++
         envGetD [("HOSTNAME", "box")] "HOSTNAME" "unknown" ++ "\nSecret: " ++
         envGetD [("HOSTNAME", "box")] "SECRET_KEY" "NOT_SET" ++ "\n")] :=
  fallback_route_body [("HOSTNAME", "box")] "T" "/other" (by decide) (by decide)

/-- Claim C9: every handler is a pure read of the configuration snapshot:
serving any sequence of requests, in either service, leaves the snapshot
unchanged. -/
theorem handlers_leave_config_unchanged (env : Env) (reqs : List (Nat × String))
    (env2 : Env) (reqs2 : List (String × String)) :
    (apiServe env reqs).1 = env ∧ (featureServe env2 reqs2).1 = env2 := by
  constructor
  · induction reqs with
    | nil => rfl
    | cons r rest ih =>
      obtain ⟨now, path⟩ := r
      simp [apiServe, ih]
  · induction reqs2 with
    | nil => rfl
    | cons r rest ih =>
      obtain ⟨ts, path⟩ := r
      simp [featureServe, ih]
